import Mathlib

/-!
Shallow embedding of the litgpt fine-tuning harness: the full-finetune training
loop (`finetune/full.py`), the data modules (`lit_gpt/datasets/alpaca.py`,
`lit_gpt/datasets/lima.py`, `lit_gpt/data/deita.py`,
`litgpt/data/tinystories.py`) and the checkpoint downloader
(`scripts/download.py`), together with proofs about the embedded definitions.
-/

namespace LitGpt

/-! ## Alpaca prompt template (`lit_gpt/datasets/alpaca.py:134-145`) -/

/-- An example record as passed to `prompt_template`: only the `instruction`
and `input` fields are read by the function. -/
structure AlpacaExample where
  instruction : String
  input : String
deriving DecidableEq, Repr

/-- Truthiness of the condition tested at `alpaca.py:135`. The source reads
`if input:` where `input` resolves to the Python builtin function `input`
(the example field would be `example["input"]`); a function object is always
truthy, so the condition is the constant `true`. -/
def promptTemplateCond : Bool := true

/-- The first return of `prompt_template` (`alpaca.py:136-140`): the variant
with the `### Input:` section. -/
def promptWithInput (ex : AlpacaExample) : String :=
  "Below is an instruction that describes a task, paired with an input that provides further context. "
    ++ "Write a response that appropriately completes the request.\n\n"
    ++ "### Instruction:\n" ++ ex.instruction
    ++ "\n\n### Input:\n" ++ ex.input
    ++ "\n\n### Response:\n"

/-- The final return of `prompt_template` (`alpaca.py:141-145`): the variant
without an `### Input:` section. -/
def promptNoInput (ex : AlpacaExample) : String :=
  "Below is an instruction that describes a task. "
    ++ "Write a response that appropriately completes the request.\n\n"
    ++ "### Instruction:\n" ++ ex.instruction
    ++ "\n\n### Response:\n"

/-- Embeds `prompt_template` from `lit_gpt/datasets/alpaca.py:134-145`. -/
def prompt_template (ex : AlpacaExample) : String :=
  if promptTemplateCond then promptWithInput ex else promptNoInput ex

/-! ## Checkpoint downloader (`scripts/download.py:18-70`) -/

/-- Does the pattern `p` occur at the head of `l`? -/
def charsAtHead : List Char → List Char → Bool
  | [], _ => true
  | _ :: _, [] => false
  | a :: p, b :: l => a == b && charsAtHead p l

/-- Does the pattern `p` occur contiguously anywhere in `l`? -/
def charsOccur (p : List Char) : List Char → Bool
  | [] => charsAtHead p []
  | b :: l => charsAtHead p (b :: l) || charsOccur p l

/-- Python substring test `pat in s`, as used at `download.py:35` and
`download.py:43`: `pat` occurs contiguously in `s`, tested on the character
lists. -/
def strContains (s pat : String) : Bool := charsOccur pat.data s.data

/-- Python truthiness of the `access_token : Optional[str]` argument tested by
`not access_token` at `download.py:35`: `None` and the empty string are falsy. -/
def tokenTruthy : Option String → Bool
  | none => false
  | some s => s != ""

/-- The externally visible outcome of a `download_from_hub` call: printing the
options list and returning, raising `ValueError`, raising
`ModuleNotFoundError`, or reaching `snapshot_download` with a list of allowed
file patterns and a target directory. -/
inductive DownloadOutcome where
  | printedOptions
  | valueError (msg : String)
  | moduleNotFoundError
  | snapshotDownload (patterns : List String) (directory : String)
deriving DecidableEq, Repr

/-- The authentication error message raised at `download.py:36-40` (text
abridged to avoid quotation marks; the leading `repo_id` is kept). -/
def authErrorMsg (rid : String) : String :=
  rid ++ " requires authentication, please set the HF_TOKEN environment variable or pass --access_token"

/-- The error message raised at `download.py:54` (text abridged to avoid
quotation marks). -/
def safetensorsTokenizerOnlyMsg : String :=
  "--from_safetensors=True has no effect with --tokenizer_only=True"

/-- The `download_files` pattern list built at `download.py:42-52`: always the
tokenizer files and `generation_config.json`, plus `qwen.tiktoken` for Qwen
repos, plus — unless `tokenizer_only` — either the safetensors or the bin
weights. -/
def downloadFilePatterns (rid : String) (from_safetensors tokenizer_only : Bool) : List String :=
  let files0 := ["tokenizer*", "generation_config.json"]
  let files1 := if strContains rid "Qwen" then files0 ++ ["qwen.tiktoken"] else files0
  if !tokenizer_only then
    files1 ++ (if from_safetensors then ["*.safetensors"] else ["*.bin*"])
  else
    files1

/-- Embeds `download_from_hub` from `scripts/download.py:18-70`, up to the call of
`snapshot_download`. `safetensorsAvailable` stands for the environment fact
`RequirementCache("safetensors")` (whether the package is installed). The
safetensors-to-bin conversion after the download (`download.py:73-86`) is not
modelled: every claim concerns the control flow before `snapshot_download`. -/
def download_from_hub (repo_id : Option String) (access_token : Option String)
    (from_safetensors tokenizer_only : Bool) (checkpoint_dir : String)
    (safetensorsAvailable : Bool) : DownloadOutcome :=
  match repo_id with
  | none => .printedOptions
  | some rid =>
    if (strContains rid "meta-llama" || strContains rid "falcon-180")
        && !tokenTruthy access_token then
      .valueError (authErrorMsg rid)
    else
      if !tokenizer_only then
        if from_safetensors then
          if !safetensorsAvailable then
            .moduleNotFoundError
          else
            .snapshotDownload (downloadFilePatterns rid from_safetensors tokenizer_only)
              (checkpoint_dir ++ "/" ++ rid)
        else
          .snapshotDownload (downloadFilePatterns rid from_safetensors tokenizer_only)
            (checkpoint_dir ++ "/" ++ rid)
      else
        if from_safetensors then
          .valueError safetensorsTokenizerOnlyMsg
        else
          .snapshotDownload (downloadFilePatterns rid from_safetensors tokenizer_only)
            (checkpoint_dir ++ "/" ++ rid)

/-! ## Argument validation in `main` (`finetune/full.py:95,302-319`)

`lit_gpt/args.py` is not among the sources; the dataclass fields below are
taken from their uses in `finetune/full.py` (`validate_args` reads exactly
`train.max_tokens`, `train.max_norm`, `io.checkpoint_dir`, `train.epochs` and
`eval.max_new_tokens`). -/

/-- The fields of `IOArgs` read by `validate_args`. -/
structure IOArgsV where
  checkpoint_dir : Option String
deriving DecidableEq, Repr

/-- The fields of `TrainArgs` read by `validate_args`. -/
structure TrainArgsV where
  max_tokens : Option ℕ
  max_norm : Option ℚ
  epochs : Option ℕ
deriving DecidableEq, Repr

/-- The fields of `EvalArgs` read by `validate_args`. -/
structure EvalArgsV where
  max_new_tokens : Option ℕ
deriving DecidableEq, Repr

/-- The issue messages collected by `validate_args` (`full.py:302-317`), in
source order: first the unsupported arguments (`train.max_tokens`,
`train.max_norm`), then the required ones (`io.checkpoint_dir`, `train.epochs`,
`eval.max_new_tokens`). Message text abridged to the distinguishing parts of
the f-strings. -/
def validate_args_issues (io : IOArgsV) (train : TrainArgsV) (ev : EvalArgsV) : List String :=
  (if train.max_tokens ≠ none then ["full.py does not support the max_tokens argument"] else [])
    ++ (if train.max_norm ≠ none then ["full.py does not support the max_norm argument"] else [])
    ++ (if io.checkpoint_dir = none then ["full.py requires the checkpoint_dir argument"] else [])
    ++ (if train.epochs = none then ["full.py requires the epochs argument"] else [])
    ++ (if ev.max_new_tokens = none then ["full.py requires the max_new_tokens argument"] else [])

/-- Embeds `validate_args` (`full.py:302-319`): raises `ValueError` with the
newline-joined issue list when any issue was collected. -/
def validate_args (io : IOArgsV) (train : TrainArgsV) (ev : EvalArgsV) : Except String Unit :=
  let issues := validate_args_issues io train ev
  if issues = [] then .ok () else .error (String.intercalate "\n" issues)

/-- Outcome of the prefix of `main` relevant to argument validation:
either a `ValueError` from `validate_args`, or `main` goes on to construct
the tokenizer, dataloaders, model, optimizer and scheduler. -/
inductive MainOutcome where
  | valueError (msg : String)
  | constructedTrainingState
deriving DecidableEq, Repr

/-- The observable prefix of `main` (`full.py:84-121`): `validate_args` is the
very first statement of `main` (`full.py:95`); only if it does not raise does
`main` build the dataloaders, model, optimizer and scheduler. -/
def mainPrefix (io : IOArgsV) (train : TrainArgsV) (ev : EvalArgsV) : MainOutcome :=
  match validate_args io train ev with
  | .error m => .valueError m
  | .ok _ => .constructedTrainingState

/-! ## Data modules (`lit_gpt/data/deita.py`, `litgpt/data/tinystories.py`,
`lit_gpt/datasets/alpaca.py`) -/

/-- Opaque stand-in for a `Tokenizer` instance: the data modules only store it
and pass it to their datasets. -/
structure TokenizerRef where
  id : ℕ
deriving DecidableEq, Repr

/-- The arguments a data module passes to the `DataLoader` constructor for its
train/val loaders. `generatorSeed` is `some s` when the module passes
`generator=torch.Generator().manual_seed(s)`, `none` when it passes no
generator. -/
structure DataLoaderArgs where
  batch_size : ℕ
  shuffle : Bool
  generatorSeed : Option ℕ
  num_workers : ℕ
  collate_max_seq_length : ℤ
  collate_ignore_index : ℤ
deriving DecidableEq, Repr

/-- The stored fields of the `Deita` dataclass (`deita.py:16-39`). -/
structure DeitaModule where
  mask_prompt : Bool
  ignore_index : ℤ
  seed : ℕ
  num_workers : ℕ
  include_multiturn_conversations : Bool
  tokenizer : Option TokenizerRef
  batch_size : ℕ
  max_seq_length : ℤ
deriving DecidableEq, Repr

/-- Field defaults of `Deita` (`deita.py:20-37`). -/
def Deita.default : DeitaModule :=
  { mask_prompt := false, ignore_index := -1, seed := 42, num_workers := 4,
    include_multiturn_conversations := false, tokenizer := none, batch_size := 1,
    max_seq_length := -1 }

/-- Embeds `Deita.connect` (`deita.py:41-49`): stores the tokenizer and batch size and
stores `max_seq_length`, defaulting `None` to `-1`. -/
def Deita.connect (d : DeitaModule) (tokenizer : Option TokenizerRef)
    (batch_size : ℕ) (max_seq_length : Option ℤ) : DeitaModule :=
  { d with tokenizer := tokenizer, batch_size := batch_size,
           max_seq_length := match max_seq_length with | none => -1 | some v => v }

/-- Embeds `Deita.train_dataloader` (`deita.py:81-89`): shuffling with a generator
seeded with `self.seed`, batch size and collate arguments from the stored
fields. -/
def Deita.train_dataloader (d : DeitaModule) : DataLoaderArgs :=
  { batch_size := d.batch_size, shuffle := true, generatorSeed := some d.seed,
    num_workers := d.num_workers, collate_max_seq_length := d.max_seq_length,
    collate_ignore_index := d.ignore_index }

/-- Embeds `Deita.val_dataloader` (`deita.py:91-98`): no shuffling, no generator. -/
def Deita.val_dataloader (d : DeitaModule) : DataLoaderArgs :=
  { batch_size := d.batch_size, shuffle := false, generatorSeed := none,
    num_workers := d.num_workers, collate_max_seq_length := d.max_seq_length,
    collate_ignore_index := d.ignore_index }

/-- The stored fields of the `TinyStories` dataclass (`tinystories.py:20-37`). -/
structure TinyStoriesModule where
  seed : ℕ
  num_workers : ℕ
  tokenizer : Option TokenizerRef
  batch_size : ℕ
  max_seq_length : ℤ
deriving DecidableEq, Repr

/-- Field defaults of `TinyStories` (`tinystories.py:30-37`). -/
def TinyStories.default : TinyStoriesModule :=
  { seed := 42, num_workers := 8, tokenizer := none, batch_size := 1, max_seq_length := -1 }

/-- Embeds `TinyStories.connect` (`tinystories.py:44-49`): stores the tokenizer and
batch size unchanged, but stores `max_seq_length + 1` ("because we need the
next token as well"). -/
def TinyStories.connect (t : TinyStoriesModule) (tokenizer : Option TokenizerRef)
    (batch_size : ℕ) (max_seq_length : ℤ) : TinyStoriesModule :=
  { t with tokenizer := tokenizer, batch_size := batch_size,
           max_seq_length := max_seq_length + 1 }

/-- The arguments `TinyStories.train_dataloader` passes to the streaming
dataset and loader. -/
structure StreamingLoaderArgs where
  block_size : ℤ
  batch_size : ℕ
  shuffle : Bool
  drop_last : Bool
deriving DecidableEq, Repr

/-- Embeds `TinyStories.train_dataloader` (`tinystories.py:80-92`): a
`StreamingDataset` with `block_size = self.max_seq_length` and a
`StreamingDataLoader` with `batch_size = self.batch_size`. -/
def TinyStories.train_dataloader (t : TinyStoriesModule) : StreamingLoaderArgs :=
  { block_size := t.max_seq_length, batch_size := t.batch_size,
    shuffle := true, drop_last := true }

/-- The stored scalar fields of `Alpaca.__init__`
(`lit_gpt/datasets/alpaca.py:31-65`). `Alpaca` is a `LightningDataModule`
configured entirely in its constructor; it has no `connect` method. -/
structure AlpacaModule where
  tokenizer : TokenizerRef
  max_seq_length : ℤ
  mask_prompt : Bool
  ignore_index : ℤ
  seed : ℕ
  batch_size : ℕ
  num_workers : ℕ
deriving DecidableEq, Repr

/-- Embeds `Alpaca.__init__` (`alpaca.py:31-65`) restricted to the stored scalar
fields: every argument is stored unchanged. -/
def Alpaca.init (tokenizer : TokenizerRef) (max_seq_length : ℤ) (mask_prompt : Bool)
    (ignore_index : ℤ) (seed : ℕ) (batch_size : ℕ) (num_workers : ℕ) : AlpacaModule :=
  { tokenizer := tokenizer, max_seq_length := max_seq_length, mask_prompt := mask_prompt,
    ignore_index := ignore_index, seed := seed, batch_size := batch_size,
    num_workers := num_workers }

/-- Embeds `Alpaca.train_dataloader` (`alpaca.py:99-106`): `shuffle=True` with **no**
generator argument, batch size and collate arguments from the stored fields. -/
def Alpaca.train_dataloader (a : AlpacaModule) : DataLoaderArgs :=
  { batch_size := a.batch_size, shuffle := true, generatorSeed := none,
    num_workers := a.num_workers, collate_max_seq_length := a.max_seq_length,
    collate_ignore_index := a.ignore_index }

/-- Embeds `Alpaca.val_dataloader` (`alpaca.py:108-115`): no shuffling. -/
def Alpaca.val_dataloader (a : AlpacaModule) : DataLoaderArgs :=
  { batch_size := a.batch_size, shuffle := false, generatorSeed := none,
    num_workers := a.num_workers, collate_max_seq_length := a.max_seq_length,
    collate_ignore_index := a.ignore_index }

/-! ## `format_dataset` (`lit_gpt/data/deita.py:101-112`,
`lit_gpt/datasets/lima.py:128-139`) -/

/-- One turn of a conversation. In Deita each turn is a message dict of which
`format_dataset` reads only `"content"`; in LIMA each turn is already a string.
Both functions read only this content, so a turn is embedded as a `String`. -/
abbrev Turn := String

/-- A record produced by `format_dataset`: the dictionaries have exactly the
keys `instruction`, `input` and `output`. -/
structure SFTRecord where
  instruction : String
  input : String
  output : String
deriving DecidableEq, Repr

/-- Python `range(0, n - 1, 2)`: the even numbers below `n - 1`, of which there
are `n / 2` (integer division). -/
def evenRange (n : ℕ) : List ℕ := List.range' 0 (n / 2) 2

/-- Embeds `format_dataset` from `lit_gpt/data/deita.py:101-112` and (up to the shape
of a turn) `lit_gpt/datasets/lima.py:128-139`: a conversation is its list of
turn contents; out-of-range indexing (impossible for the index ranges used on
conversations of length at least 2) is totalised with the empty string. -/
def format_dataset (conversations : List (List Turn))
    (include_multi_turn_conversations : Bool) : List SFTRecord :=
  conversations.flatMap (fun convo =>
    if include_multi_turn_conversations then
      (evenRange convo.length).map (fun i =>
        { instruction := convo.getD i "", input := "", output := convo.getD (i + 1) "" })
    else
      [{ instruction := convo.getD 0 "", input := "", output := convo.getD 1 "" }])

/-! ## The training loop of `fit` (`finetune/full.py:141-237`)

Third-party quantities are embedded at the level the loop observes them:
micro-batch losses are an arbitrary sequence `loss : ℕ → ℚ` indexed by
`iter_num`, and `gai` stands for the value
`train.gradient_accumulation_iters(devices)` (`lit_gpt/args.py`, not among the
sources; the loop only ever reads this one value). -/

/-- torchmetrics `RunningMean(window=w).update` (third-party), as configured at
`full.py:180`: append the new value and keep the last `w` values. -/
def runningUpdate (w : ℕ) (buf : List ℚ) (v : ℚ) : List ℚ :=
  let b := buf ++ [v]
  b.drop (b.length - w)

/-- torchmetrics `RunningMean.compute` (third-party): the mean of the stored
window. -/
def runningCompute (buf : List ℚ) : ℚ := buf.sum / buf.length

/-- The loop state of `fit` that the claims concern: the `iter_num` and
`step_count` counters of the `state` dict and the `RunningMean` window. -/
structure FitState where
  iter_num : ℕ
  step_count : ℕ
  lossWindow : List ℚ
deriving DecidableEq, Repr

/-- The checkpoint file name `f"step-06d.pth"` formatted with
`state["step_count"]` zero-padded to width 6 (`full.py:235`). -/
def checkpointName (step_count : ℕ) : String :=
  let s := Nat.repr step_count
  "step-" ++ String.mk (List.replicate (6 - s.length) '0') ++ s ++ ".pth"

/-- Everything externally observable that one iteration of the `while` loop in
`fit` does (`full.py:185-237`): whether the iteration is accumulating
(`iter_num % gai != 0`), whether backward gradient synchronization was disabled
(`no_backward_sync(..., enabled=is_accumulating)`), the value passed to
`fabric.backward` (`loss / gai`), whether `optimizer.step`,
`optimizer.zero_grad`, `scheduler.step` and the `step_count` increment ran,
the logged loss (when `iter_num % log_interval == 0`), whether `validate` ran,
and the name of a saved checkpoint if any. -/
structure FitEvent where
  isAccumulating : Bool
  syncDisabled : Bool
  backwardContrib : ℚ
  optimizerStep : Bool
  zeroGrad : Bool
  schedulerStep : Bool
  loggedLoss : Option ℚ
  validated : Bool
  savedCheckpoint : Option String
deriving DecidableEq, Repr

/-- One iteration of the `while` loop of `fit` (`full.py:185-237`). -/
def fitIter (gai logInterval evalInterval saveInterval : ℕ) (loss : ℕ → ℚ)
    (s : FitState) : FitState × FitEvent :=
  let iter := s.iter_num + 1
  let isAcc := decide (iter % gai ≠ 0)
  let l := loss iter
  let buf := runningUpdate gai s.lossWindow l
  let step := if isAcc then s.step_count else s.step_count + 1
  let ev : FitEvent :=
    { isAccumulating := isAcc
      syncDisabled := isAcc
      backwardContrib := l / (gai : ℚ)
      optimizerStep := !isAcc
      zeroGrad := !isAcc
      schedulerStep := !isAcc
      loggedLoss := if iter % logInterval = 0 then some (runningCompute buf) else none
      validated := !isAcc && decide (step % evalInterval = 0)
      savedCheckpoint :=
        if !isAcc && decide (step % saveInterval = 0) then some (checkpointName step) else none }
  ({ iter_num := iter, step_count := step, lossWindow := buf }, ev)

/-- The loop state after `i` iterations of `fit` started fresh
(`state = ... "iter_num": 0, "step_count": 0` at `full.py:121`, empty running
window). -/
def fitStateAfter (gai li ei si : ℕ) (loss : ℕ → ℚ) : ℕ → FitState
  | 0 => { iter_num := 0, step_count := 0, lossWindow := [] }
  | i + 1 => (fitIter gai li ei si loss (fitStateAfter gai li ei si loss i)).1

/-- The event of iteration `i` (1-indexed, as `iter_num` counts) of a fresh
run. -/
def fitEventAt (gai li ei si : ℕ) (loss : ℕ → ℚ) (i : ℕ) : FitEvent :=
  (fitIter gai li ei si loss (fitStateAfter gai li ei si loss (i - 1))).2

/-- The sampling part of `validate` (`full.py:256-270`): the instruction prompt
is a fixed string and `generate` is called with
`max_returned_tokens = len(encoded) + eval.max_new_tokens` and temperature
`0.8`. -/
structure GenerationCall where
  promptInstruction : String
  maxReturnedTokens : ℕ
  temperature : ℚ
deriving DecidableEq, Repr

/-- The `generate` call made by every `validate` (`full.py:258-266`),
parametrised by the length of the encoded prompt and `eval.max_new_tokens`. -/
def validateGeneration (encodedLen max_new_tokens : ℕ) : GenerationCall :=
  { promptInstruction :=
      "Recommend a movie for me to watch during the weekend and explain the reason."
    maxReturnedTokens := encodedLen + max_new_tokens
    temperature := 8 / 10 }

/-! ## Learning-rate schedule (`finetune/full.py:100-101,276-280`)

The three torch schedulers are third-party; they are embedded at the level of
their documented learning-rate functions. -/

/-- torch `LambdaLR` (third-party) with the factor function passed at
`full.py:278`, `lambda step: step / warmup_steps`: after `k` scheduler steps
the learning rate is the base rate times `k / warmup_steps`. -/
noncomputable def lambdaLRFactor (warmup_steps k : ℕ) : ℝ := (k : ℝ) / (warmup_steps : ℝ)

/-- torch `CosineAnnealingLR` (third-party, closed form with the default
`eta_min = 0`): after `k` steps of this scheduler the learning rate is the base
rate times `(1 + cos (π k / T_max)) / 2`. -/
noncomputable def cosineAnnealingFactor (tMax : ℤ) (k : ℕ) : ℝ :=
  (1 + Real.cos (Real.pi * (k : ℝ) / (tMax : ℝ))) / 2

/-- torch `SequentialLR` (third-party) with two schedulers and
`milestones=[m]`: the first scheduler is active for global steps `k < m`; from
`k = m` on the wrapper switches to the second scheduler restarted at its own
step `0`, so the second scheduler sees step `k - m`. -/
noncomputable def sequentialLRFactor (f g : ℕ → ℝ) (m k : ℕ) : ℝ :=
  if k < m then f k else g (k - m)

/-- Embeds `get_lr_scheduler` (`full.py:276-280`): the learning-rate multiplier after
`k` optimizer/scheduler steps, for `warmup_steps` and `max_steps` as passed by
`main`. -/
noncomputable def get_lr_scheduler (warmup_steps max_steps k : ℕ) : ℝ :=
  sequentialLRFactor (lambdaLRFactor warmup_steps)
    (cosineAnnealingFactor ((max_steps : ℤ) - (warmup_steps : ℤ))) warmup_steps k

/-- Embeds `steps_per_epoch = len(train_dataloader) // gradient_accumulation_iters`
(`full.py:100`). -/
def steps_per_epoch (loaderLen gai : ℕ) : ℕ := loaderLen / gai

/-- Embeds `lr_max_steps = min(train.epochs * steps_per_epoch, train.max_steps or
float("inf"))` (`full.py:101`): Python's `or` treats both `None` and `0` as
falsy, so either makes the second argument infinite and the minimum the first
argument. -/
def lr_max_steps (epochs loaderLen gai : ℕ) (max_steps : Option ℕ) : ℕ :=
  match max_steps with
  | none => epochs * steps_per_epoch loaderLen gai
  | some ms =>
    if ms = 0 then epochs * steps_per_epoch loaderLen gai
    else min (epochs * steps_per_epoch loaderLen gai) ms

/-! ## Resuming the cycling data iterator (`finetune/full.py:163-178`)

The data pipeline is embedded at the level `fit` observes it: a run consumes
dataset indices through a cycling iterator over the train `DataLoader`. The
shuffling itself is third-party (torch `RandomSampler`): each time a new epoch
iterator is created, the epoch permutation is drawn from the `DataLoader`'s own
generator when one was passed (`generatorSeed = some g`, as Deita does at
`deita.py:86`), and otherwise from a fresh generator seeded from the **global**
torch RNG, consuming one draw of it (as happens for Alpaca, whose
`train_dataloader` at `alpaca.py:99-106` passes no generator). The global RNG
is abstracted to a draw counter: `validate` advances it (temperature sampling
in `generate`, `full.py:265-266`), and seeding an epoch permutation without a
module generator reads and advances it. -/

/-- The third-party randomness of a run, over which the embedding is
parametric: `drawPerm s p` is the dataset index at position `p` of the epoch
permutation drawn from seed `s` (torch `RandomSampler`), `seedStream g e` is
the seed the module generator with initial seed `g` yields for epoch `e`, and
`validateDraws` is the number of global-RNG draws one `validate` call consumes. -/
structure RunCfg where
  datasetLen : ℕ
  generatorSeed : Option ℕ
  gai : ℕ
  evalInterval : ℕ
  validateDraws : ℕ
  drawPerm : ℕ → ℕ → ℕ
  seedStream : ℕ → ℕ → ℕ

/-- The state of the cycling iterator together with the global RNG:
`permSeed = none` means the inner dataloader iterator has not been created yet
(`CycleIterator` creates it lazily on the first `next`). -/
structure IterState where
  epoch : ℕ
  pos : ℕ
  permSeed : Option ℕ
  rng : ℕ
deriving DecidableEq, Repr

/-- Creating a fresh epoch iterator: draw the permutation seed from the module
generator when the `DataLoader` got one, otherwise seed from the global RNG
(consuming one draw). Returns the first batch of the new epoch and the new
state. -/
def newEpochIter (cfg : RunCfg) (e rng : ℕ) : ℕ × IterState :=
  match cfg.generatorSeed with
  | some g =>
    let s := cfg.seedStream g e
    (cfg.drawPerm s 0, { epoch := e, pos := 1, permSeed := some s, rng := rng })
  | none =>
    (cfg.drawPerm rng 0, { epoch := e, pos := 1, permSeed := some rng, rng := rng + 1 })

/-- Modelled from the spec: `CycleIterator` (`lit_gpt.utils`, imported at
`full.py:34` but not among the sources), "a cycling data iterator": `next`
takes the next batch of the current epoch iterator, and when the epoch is
exhausted it recreates the dataloader iterator, increments `epoch` and takes
the first batch of the new epoch. Returns the dataset index of the consumed
batch. -/
def cycleNext (cfg : RunCfg) (s : IterState) : ℕ × IterState :=
  match s.permSeed with
  | none => newEpochIter cfg s.epoch s.rng
  | some ps =>
    if s.pos < cfg.datasetLen then
      (cfg.drawPerm ps s.pos, { s with pos := s.pos + 1 })
    else
      newEpochIter cfg (s.epoch + 1) s.rng

/-- One training iteration of `fit` as it affects the data pipeline and the
global RNG (`full.py:185-233`): consume one batch, then run `validate`
(consuming `validateDraws` global-RNG draws) exactly when the iteration
completes an optimizer step whose resulting step count is a multiple of
`eval.interval`. `iterNum` is the 0-based count of already finished
iterations, so this is iteration `iterNum + 1`; its step count is
`(iterNum + 1) / gai`, as proved for the loop counters in the `fitIter`
theorems. -/
def trainStep (cfg : RunCfg) (iterNum : ℕ) (s : IterState) : ℕ × IterState :=
  let bs := cycleNext cfg s
  let i := iterNum + 1
  if i % cfg.gai = 0 ∧ (i / cfg.gai) % cfg.evalInterval = 0 then
    (bs.1, { bs.2 with rng := bs.2.rng + cfg.validateDraws })
  else
    bs

/-- The iterator/RNG state at the start of `fit`'s loop region: the global RNG
starts at `g0` and the sanity-check `validate` (`full.py:163`) has consumed its
draws; no epoch iterator exists yet. -/
def initIterState (cfg : RunCfg) (g0 : ℕ) : IterState :=
  { epoch := 0, pos := 0, permSeed := none, rng := g0 + cfg.validateDraws }

/-- The iterator/RNG state of an uninterrupted run after `i` training
iterations. -/
def freshState (cfg : RunCfg) (g0 : ℕ) : ℕ → IterState
  | 0 => initIterState cfg g0
  | i + 1 => (trainStep cfg i (freshState cfg g0 i)).2

/-- The dataset index consumed at iteration `i` (1-indexed) of the
uninterrupted run. -/
def freshBatch (cfg : RunCfg) (g0 i : ℕ) : ℕ :=
  (trainStep cfg (i - 1) (freshState cfg g0 (i - 1))).1

/-- The fast-forward loop at `full.py:168-178`:
`for resume_iter in range(initial_iter): next(train_iterator)`. Returns the
list of batches consumed (to state how many `next` calls the loop makes) and
the resulting iterator state. -/
def fastForward (cfg : RunCfg) (s : IterState) : ℕ → List ℕ × IterState
  | 0 => ([], s)
  | n + 1 =>
    let bt := fastForward cfg s n
    let b := cycleNext cfg bt.2
    (bt.1 ++ [b.1], b.2)

/-- The iterator/RNG state of a run resumed from a checkpoint whose saved
`iter_num` is `n`, after `j` further training iterations: same start as the
fresh run (`fabric.seed_everything(seed)` at `full.py:103` and the sanity
`validate`), then the fast-forward of `n` batches, then training iterations
`n + 1, n + 2, ...` with the resumed counters. -/
def resumedState (cfg : RunCfg) (g0 n : ℕ) : ℕ → IterState
  | 0 => (fastForward cfg (initIterState cfg g0) n).2
  | j + 1 => (trainStep cfg (n + j) (resumedState cfg g0 n j)).2

/-- The dataset index consumed at overall iteration `n + j` (`j ≥ 1`, i.e. the
`j`-th post-resume training iteration) of the resumed run. -/
def resumedBatch (cfg : RunCfg) (g0 n j : ℕ) : ℕ :=
  (trainStep cfg (n + j - 1) (resumedState cfg g0 n (j - 1))).1

/-- A concrete instance of the third-party randomness and of Alpaca's
train-dataloader configuration (`generatorSeed = none`, matching
`(Alpaca.train_dataloader a).generatorSeed`): two batches per epoch, every
optimizer step is one iteration (`gai = 1`), validation every second step,
one RNG draw per `validate`, and an epoch permutation that starts at index
`seed % 2`. -/
def alpacaCounterCfg : RunCfg :=
  { datasetLen := 2, generatorSeed := none, gai := 1, evalInterval := 2,
    validateDraws := 1, drawPerm := fun s p => (s + p) % 2,
    seedStream := fun g e => g + e }

/-- Agreement of two iterator states on everything except the global RNG: the
epoch, the position within it and the seed its permutation was drawn from.
When the `DataLoader` has its own generator, batch values depend only on these
components. -/
def triEq (s t : IterState) : Prop :=
  s.epoch = t.epoch ∧ s.pos = t.pos ∧ s.permSeed = t.permSeed

/-! ## Theorems -/

/-- C8: for every example dictionary, the Alpaca `prompt_template` returns the
template variant containing the `### Input:` section, even when the example's
`input` is the empty string — the branch condition tests the always-truthy
Python builtin `input` rather than the example's field, so the no-input variant
at the end of the function is never returned. -/
theorem C8_prompt_template_always_with_input (ex : AlpacaExample) :
    prompt_template ex = promptWithInput ex ∧ prompt_template ex ≠ promptNoInput ex := by
  refine ⟨rfl, fun h => ?_⟩
  have hlen := congrArg String.length h
  simp only [prompt_template, promptTemplateCond, if_true, promptWithInput, promptNoInput,
    String.length_append] at hlen
  have h1 : ("Below is an instruction that describes a task, paired with an input that provides further context. " : String).length = 99 := by decide
  have h2 : ("Below is an instruction that describes a task. " : String).length = 47 := by decide
  have h3 : ("\n\n### Input:\n" : String).length = 13 := by decide
  omega

/-- Witness for C8 at the example with instruction `"a"` and empty input. -/
theorem C8_prompt_template_witness :
    prompt_template { instruction := "a", input := "" }
        = promptWithInput { instruction := "a", input := "" } ∧
      prompt_template { instruction := "a", input := "" }
        ≠ promptNoInput { instruction := "a", input := "" } :=
  C8_prompt_template_always_with_input { instruction := "a", input := "" }

/-- C10 counterexample: for `repo_id = "EleutherAI/pythia-14m"` (which needs no
authentication token), `from_safetensors = True`, `tokenizer_only = False` and
the safetensors package unavailable, `download_from_hub` raises
`ModuleNotFoundError` (`download.py:47-48`) — it does not proceed to the
snapshot download although none of the claim's `ValueError`/`None` conditions
holds. -/
theorem C10_counterexample_module_not_found :
    download_from_hub (some "EleutherAI/pythia-14m") none true false "checkpoints" false
        = .moduleNotFoundError ∧
      strContains "EleutherAI/pythia-14m" "meta-llama" = false ∧
      strContains "EleutherAI/pythia-14m" "falcon-180" = false := by
  refine ⟨rfl, by decide, by decide⟩

/-- C10 (amended): `download_from_hub` prints the option list and returns when
`repo_id` is `None`; raises `ValueError` when the repo id contains
`meta-llama` or `falcon-180` and no (truthy) access token is given; otherwise
raises `ValueError` when `tokenizer_only` and `from_safetensors` are both
true; otherwise raises `ModuleNotFoundError` when `from_safetensors` is true
but the safetensors package is unavailable; and in all remaining cases
proceeds to the snapshot download into `checkpoint_dir / repo_id`. -/
theorem C10_download_from_hub_cases (rid : String) (tok : Option String)
    (fs tOnly avail : Bool) (dir : String) :
    (download_from_hub none tok fs tOnly dir avail = .printedOptions) ∧
    (((strContains rid "meta-llama" || strContains rid "falcon-180")
        && !tokenTruthy tok) = true →
      download_from_hub (some rid) tok fs tOnly dir avail
        = .valueError (authErrorMsg rid)) ∧
    (((strContains rid "meta-llama" || strContains rid "falcon-180")
        && !tokenTruthy tok) = false → tOnly = true → fs = true →
      download_from_hub (some rid) tok fs tOnly dir avail
        = .valueError safetensorsTokenizerOnlyMsg) ∧
    (((strContains rid "meta-llama" || strContains rid "falcon-180")
        && !tokenTruthy tok) = false → tOnly = false → fs = true → avail = false →
      download_from_hub (some rid) tok fs tOnly dir avail = .moduleNotFoundError) ∧
    (((strContains rid "meta-llama" || strContains rid "falcon-180")
        && !tokenTruthy tok) = false → (tOnly && fs) = false → (!tOnly && fs && !avail) = false →
      download_from_hub (some rid) tok fs tOnly dir avail
        = .snapshotDownload (downloadFilePatterns rid fs tOnly) (dir ++ "/" ++ rid)) := by
  refine ⟨rfl, fun hc => ?_, fun hc ht hf => ?_, fun hc ht hf hv => ?_, fun hc h1 h2 => ?_⟩
  · simp [download_from_hub, hc]
  · simp [download_from_hub, hc, ht, hf]
  · simp [download_from_hub, hc, ht, hf, hv]
  · cases tOnly <;> cases fs <;> cases avail <;>
      simp only [Bool.and_self, Bool.and_true, Bool.and_false, Bool.not_true, Bool.not_false,
        Bool.true_and, Bool.false_and] at h1 h2 <;>
      first
        | exact Bool.noConfusion h1
        | exact Bool.noConfusion h2
        | simp [download_from_hub, hc]

/-- Witness for C10 at the `meta-llama` repo id with no token. -/
theorem C10_download_from_hub_witness :
    download_from_hub (some "meta-llama/Llama-2-7b-hf") none false false "checkpoints" true
      = .valueError (authErrorMsg "meta-llama/Llama-2-7b-hf") :=
  (C10_download_from_hub_cases "meta-llama/Llama-2-7b-hf" none false false true
    "checkpoints").2.1 (by decide)

/-- C9: the `main` prefix raises `ValueError` — and constructs no training
state — exactly when `train.max_tokens` or `train.max_norm` is set
(unsupported) or one of `io.checkpoint_dir`, `train.epochs`,
`eval.max_new_tokens` is `None` (required); in that case the single exception
message joins the collected issue list, which contains one entry for every
violated argument. -/
theorem C9_main_validates_args_first (io : IOArgsV) (train : TrainArgsV) (ev : EvalArgsV) :
    ((∃ m, mainPrefix io train ev = .valueError m) ↔
      (train.max_tokens ≠ none ∨ train.max_norm ≠ none ∨ io.checkpoint_dir = none ∨
        train.epochs = none ∨ ev.max_new_tokens = none)) ∧
    ((∃ m, mainPrefix io train ev = .valueError m) →
      mainPrefix io train ev
          = .valueError (String.intercalate "\n" (validate_args_issues io train ev)) ∧
        mainPrefix io train ev ≠ .constructedTrainingState) ∧
    (train.max_tokens ≠ none →
      "full.py does not support the max_tokens argument" ∈ validate_args_issues io train ev) ∧
    (train.max_norm ≠ none →
      "full.py does not support the max_norm argument" ∈ validate_args_issues io train ev) ∧
    (io.checkpoint_dir = none →
      "full.py requires the checkpoint_dir argument" ∈ validate_args_issues io train ev) ∧
    (train.epochs = none →
      "full.py requires the epochs argument" ∈ validate_args_issues io train ev) ∧
    (ev.max_new_tokens = none →
      "full.py requires the max_new_tokens argument" ∈ validate_args_issues io train ev) := by
  have hempty : validate_args_issues io train ev = [] ↔
      ¬(train.max_tokens ≠ none ∨ train.max_norm ≠ none ∨ io.checkpoint_dir = none ∨
        train.epochs = none ∨ ev.max_new_tokens = none) := by
    unfold validate_args_issues
    rcases train.max_tokens <;> rcases train.max_norm <;> rcases io.checkpoint_dir <;>
      rcases train.epochs <;> rcases ev.max_new_tokens <;> simp
  constructor
  · constructor
    · intro ⟨m, hm⟩
      by_contra hno
      have h0 : validate_args_issues io train ev = [] := hempty.mpr hno
      simp [mainPrefix, validate_args, h0] at hm
    · intro hcond
      have h0 : validate_args_issues io train ev ≠ [] := fun he => (hempty.mp he) hcond
      refine ⟨String.intercalate "\n" (validate_args_issues io train ev), ?_⟩
      simp [mainPrefix, validate_args, h0]
  refine ⟨fun ⟨m, hm⟩ => ?_, ?_, ?_, ?_, ?_, ?_⟩
  · have h0 : validate_args_issues io train ev ≠ [] := by
      intro he
      simp [mainPrefix, validate_args, he] at hm
    simp [mainPrefix, validate_args, if_neg h0]
  · intro h; unfold validate_args_issues; simp [h]
  · intro h; unfold validate_args_issues; simp [h]
  · intro h; unfold validate_args_issues; simp [h]
  · intro h; unfold validate_args_issues; simp [h]
  · intro h; unfold validate_args_issues; simp [h]

/-- Witness for C9 with `max_tokens` set and `epochs` missing. -/
theorem C9_main_validates_args_witness :
    (∃ m, mainPrefix { checkpoint_dir := some "ckpt" }
        { max_tokens := some 5, max_norm := none, epochs := none }
        { max_new_tokens := some 3 } = .valueError m) ∧
      "full.py requires the epochs argument" ∈ validate_args_issues
        { checkpoint_dir := some "ckpt" }
        { max_tokens := some 5, max_norm := none, epochs := none }
        { max_new_tokens := some 3 } := by
  have h := C9_main_validates_args_first { checkpoint_dir := some "ckpt" }
    { max_tokens := some 5, max_norm := none, epochs := none } { max_new_tokens := some 3 }
  exact ⟨h.1.mpr (by simp), h.2.2.2.2.2.1 rfl⟩

/-- C6 counterexample: `TinyStories.connect` does not store the given
`max_seq_length` unchanged — connecting with `max_seq_length = 10` stores `11`
(`tinystories.py:49` adds one), and the train dataloader built afterwards uses
block size `11`, not `10`. -/
theorem C6_counterexample_tinystories_connect :
    (TinyStories.connect TinyStories.default none 2 10).max_seq_length = 11 ∧
      (TinyStories.connect TinyStories.default none 2 10).max_seq_length ≠ 10 ∧
      (TinyStories.train_dataloader (TinyStories.connect TinyStories.default none 2 10)).block_size
        = 11 :=
  ⟨rfl, by decide, rfl⟩

/-- C6 (amended): `Deita` and `TinyStories` expose the
connect/prepare_data/setup/train_dataloader/val_dataloader contract, while
`Alpaca` (and `LIMA`) take the same configuration through their constructors
instead. `Deita.connect` stores the tokenizer and batch size unchanged and
`max_seq_length` unchanged except that `None` becomes `-1`, and its
dataloaders use exactly the stored values; `TinyStories.connect` stores the
tokenizer and batch size unchanged but `max_seq_length + 1`, and its train
dataloader uses the stored values; `Alpaca.__init__` stores its arguments
unchanged and its dataloaders use them. -/
theorem C6_connect_stores_and_loaders_use (d : DeitaModule) (t : TinyStoriesModule)
    (tok : Option TokenizerRef) (bs : ℕ) (msl : ℤ) (tok2 : TokenizerRef)
    (msl2 : ℤ) (mp : Bool) (ii : ℤ) (seed : ℕ) (bs2 nw : ℕ) :
    ((Deita.connect d tok bs (some msl)).tokenizer = tok ∧
      (Deita.connect d tok bs (some msl)).batch_size = bs ∧
      (Deita.connect d tok bs (some msl)).max_seq_length = msl ∧
      (Deita.connect d tok bs none).max_seq_length = -1) ∧
    ((Deita.train_dataloader (Deita.connect d tok bs (some msl))).batch_size = bs ∧
      (Deita.train_dataloader (Deita.connect d tok bs (some msl))).collate_max_seq_length = msl ∧
      (Deita.val_dataloader (Deita.connect d tok bs (some msl))).batch_size = bs ∧
      (Deita.val_dataloader (Deita.connect d tok bs (some msl))).collate_max_seq_length = msl) ∧
    ((TinyStories.connect t tok bs msl).tokenizer = tok ∧
      (TinyStories.connect t tok bs msl).batch_size = bs ∧
      (TinyStories.connect t tok bs msl).max_seq_length = msl + 1 ∧
      (TinyStories.train_dataloader (TinyStories.connect t tok bs msl)).batch_size = bs ∧
      (TinyStories.train_dataloader (TinyStories.connect t tok bs msl)).block_size = msl + 1) ∧
    ((Alpaca.init tok2 msl2 mp ii seed bs2 nw).tokenizer = tok2 ∧
      (Alpaca.init tok2 msl2 mp ii seed bs2 nw).batch_size = bs2 ∧
      (Alpaca.init tok2 msl2 mp ii seed bs2 nw).max_seq_length = msl2 ∧
      (Alpaca.train_dataloader (Alpaca.init tok2 msl2 mp ii seed bs2 nw)).batch_size = bs2 ∧
      (Alpaca.train_dataloader (Alpaca.init tok2 msl2 mp ii seed bs2 nw)).collate_max_seq_length
        = msl2) :=
  ⟨⟨rfl, rfl, rfl, rfl⟩, ⟨rfl, rfl, rfl, rfl⟩, ⟨rfl, rfl, rfl, rfl, rfl⟩,
    ⟨rfl, rfl, rfl, rfl, rfl⟩⟩

/-- Step-2 ranges enumerate doubled indices: `range' s m 2` is `range m` with
each index doubled and shifted by `s`. -/
theorem range'_two_eq_map_range (m s : ℕ) :
    List.range' s m 2 = (List.range m).map (fun k => s + 2 * k) := by
  induction m generalizing s with
  | zero => simp
  | succ m ih =>
    rw [List.range'_succ, List.range_succ_eq_map, ih (s + 2)]
    simp only [List.map_cons, List.map_map]
    refine congrArg₂ _ (by omega) ?_
    refine List.map_congr_left (fun k _ => ?_)
    simp [Function.comp]
    omega

/-- C7: on partitions whose conversations each have at least two turns,
`format_dataset` (Deita and, with string turns, LIMA) produces records with
exactly the keys `instruction`, `input`, `output`, the `input` always empty;
with `include_multi_turn_conversations = False` it emits exactly one record
per conversation built from the first two turns, and with `True` one record
per consecutive (even, odd) turn pair. -/
theorem C7_format_dataset_shape (convos : List (List Turn))
    (h : ∀ c ∈ convos, 2 ≤ c.length) :
    (∀ b : Bool, ∀ r ∈ format_dataset convos b, r.input = "") ∧
    (∀ c ∈ convos, ∃ t1 t2 rest, c = t1 :: t2 :: rest) ∧
    format_dataset convos false
      = convos.map (fun c =>
          { instruction := c.getD 0 "", input := "", output := c.getD 1 "" }) ∧
    (format_dataset convos false).length = convos.length ∧
    format_dataset convos true
      = convos.flatMap (fun c => (List.range (c.length / 2)).map (fun k =>
          { instruction := c.getD (2 * k) "", input := "", output := c.getD (2 * k + 1) "" })) := by
  have hmap : format_dataset convos false
      = convos.map (fun c =>
          { instruction := c.getD 0 "", input := "", output := c.getD 1 "" }) := by
    induction convos with
    | nil => rfl
    | cons c cs ih => simp_all [format_dataset]
  have htrue : format_dataset convos true
      = convos.flatMap (fun c => (List.range (c.length / 2)).map (fun k =>
          { instruction := c.getD (2 * k) "", input := "", output := c.getD (2 * k + 1) "" })) := by
    simp only [format_dataset, if_true]
    refine congrArg _ (funext fun c => ?_)
    rw [evenRange, range'_two_eq_map_range, List.map_map]
    refine List.map_congr_left (fun k _ => ?_)
    simp [Function.comp]
  refine ⟨?_, ?_, hmap, by rw [hmap]; simp, htrue⟩
  · intro b r hr
    cases b with
    | false =>
      rw [hmap] at hr
      obtain ⟨c, -, rfl⟩ := List.mem_map.mp hr
      rfl
    | true =>
      rw [htrue] at hr
      obtain ⟨c, -, hc⟩ := List.mem_flatMap.mp hr
      obtain ⟨k, -, rfl⟩ := List.mem_map.mp hc
      rfl
  · intro c hc
    rcases c with _ | ⟨t1, c⟩
    · exact absurd (h _ hc) (by simp)
    rcases c with _ | ⟨t2, rest⟩
    · exact absurd (h _ hc) (by simp)
    exact ⟨t1, t2, rest, rfl⟩

/-- Witness for C7 on two concrete conversations. -/
theorem C7_format_dataset_witness :
    (∀ c ∈ [["q1", "a1"], ["q2", "a2", "q3", "a3"]], 2 ≤ c.length) ∧
      format_dataset [["q1", "a1"], ["q2", "a2", "q3", "a3"]] true
        = [{ instruction := "q1", input := "", output := "a1" },
           { instruction := "q2", input := "", output := "a2" },
           { instruction := "q3", input := "", output := "a3" }] := by
  constructor
  · decide
  · have hth := C7_format_dataset_shape [["q1", "a1"], ["q2", "a2", "q3", "a3"]] (by decide)
    rw [hth.2.2.2.2]
    rfl

/-- After `i` loop iterations of a fresh run, `iter_num` is `i`. -/
theorem fit_iter_num (gai li ei si : ℕ) (loss : ℕ → ℚ) (i : ℕ) :
    (fitStateAfter gai li ei si loss i).iter_num = i := by
  induction i with
  | zero => rfl
  | succ n ih => simp [fitStateAfter, fitIter, ih]

/-- After `i` loop iterations of a fresh run, `step_count` is `i / gai`. -/
theorem fit_step_count (gai li ei si : ℕ) (loss : ℕ → ℚ) (hg : 0 < gai) (i : ℕ) :
    (fitStateAfter gai li ei si loss i).step_count = i / gai := by
  induction i with
  | zero => simp [fitStateAfter]
  | succ n ih =>
    have hn := fit_iter_num gai li ei si loss n
    simp only [fitStateAfter, fitIter, hn, ih]
    rw [Nat.succ_div]
    by_cases hd : gai ∣ n + 1
    · have hm : (n + 1) % gai = 0 := Nat.dvd_iff_mod_eq_zero.mp hd
      simp [hm, hd]
    · have hm : (n + 1) % gai ≠ 0 := fun h => hd (Nat.dvd_iff_mod_eq_zero.mpr h)
      simp [hm, hd]

/-- After `i` loop iterations of a fresh run, the `RunningMean` buffer holds
the last `min gai i` micro-batch losses, i.e. the losses of iterations
`i - gai + 1 .. i`. -/
theorem fit_lossWindow (gai li ei si : ℕ) (loss : ℕ → ℚ) (hg : 0 < gai) (i : ℕ) :
    (fitStateAfter gai li ei si loss i).lossWindow
      = ((List.range i).map (fun j => loss (j + 1))).drop (i - gai) := by
  induction i with
  | zero => simp [fitStateAfter]
  | succ n ih =>
    have hn := fit_iter_num gai li ei si loss n
    simp only [fitStateAfter, fitIter, hn, ih, runningUpdate]
    rw [List.range_succ, List.map_append]
    rw [List.length_append]
    simp only [List.length_drop, List.length_map, List.length_range, List.length_singleton]
    rw [List.drop_append_of_le_length
      (by simp only [List.length_drop, List.length_map, List.length_range]; omega)]
    rw [List.drop_drop]
    rw [List.drop_append_of_le_length
      (by simp only [List.length_map, List.length_range]; omega)]
    refine congrArg₂ _ (congrArg₂ _ ?_ rfl) rfl
    omega

/-- The closed form of the event of iteration `i` of a fresh run: every field
as a function of `i` alone. -/
theorem fitEventAt_formula (gai li ei si : ℕ) (loss : ℕ → ℚ) (hg : 0 < gai) (i : ℕ)
    (hi : 0 < i) :
    fitEventAt gai li ei si loss i =
      { isAccumulating := decide (i % gai ≠ 0)
        syncDisabled := decide (i % gai ≠ 0)
        backwardContrib := loss i / (gai : ℚ)
        optimizerStep := !decide (i % gai ≠ 0)
        zeroGrad := !decide (i % gai ≠ 0)
        schedulerStep := !decide (i % gai ≠ 0)
        loggedLoss :=
          if i % li = 0 then
            some (runningCompute (((List.range i).map (fun j => loss (j + 1))).drop (i - gai)))
          else none
        validated := !decide (i % gai ≠ 0) && decide ((i / gai) % ei = 0)
        savedCheckpoint :=
          if !decide (i % gai ≠ 0) && decide ((i / gai) % si = 0) then
            some (checkpointName (i / gai))
          else none } := by
  obtain ⟨n, rfl⟩ : ∃ n, i = n + 1 := ⟨i - 1, (Nat.succ_pred_eq_of_pos hi).symm⟩
  have hn := fit_iter_num gai li ei si loss n
  have hs := fit_step_count gai li ei si loss hg n
  have hw := fit_lossWindow gai li ei si loss hg n
  have hstep : (if decide ((n + 1) % gai ≠ 0) = true then n / gai else n / gai + 1)
      = (n + 1) / gai := by
    rw [Nat.succ_div]
    by_cases hd : gai ∣ n + 1
    · have hm : (n + 1) % gai = 0 := Nat.dvd_iff_mod_eq_zero.mp hd
      simp [hm, hd]
    · have hm : (n + 1) % gai ≠ 0 := fun h => hd (Nat.dvd_iff_mod_eq_zero.mpr h)
      simp [hm, hd]
  have hwin : runningUpdate gai (fitStateAfter gai li ei si loss n).lossWindow (loss (n + 1))
      = ((List.range (n + 1)).map (fun j => loss (j + 1))).drop (n + 1 - gai) := by
    have := fit_lossWindow gai li ei si loss hg (n + 1)
    simpa only [fitStateAfter, fitIter, hn] using this
  show (fitIter gai li ei si loss (fitStateAfter gai li ei si loss (n + 1 - 1))).2 = _
  simp only [Nat.add_sub_cancel]
  simp only [fitIter, hn, hs, hwin, hstep]

/-- Dropping from a unit-step range shifts its start. -/
theorem drop_range_shift (m s n : ℕ) : (List.range' s n).drop m = List.range' (s + m) (n - m) := by
  induction n generalizing s m with
  | zero => simp
  | succ k ih =>
    cases m with
    | zero => simp
    | succ m' =>
      rw [List.range'_succ, List.drop_succ_cons, ih,
        show s + 1 + m' = s + (m' + 1) from by omega,
        show k - m' = k + 1 - (m' + 1) from by omega]

/-- C2: in a fresh run (`iter_num` counted from 1), iteration `i` runs the
optimizer step, gradient zeroing, scheduler step and the `step_count`
increment exactly when `i` is a multiple of
`train.gradient_accumulation_iters(devices)`; every other iteration disables
backward gradient synchronization and accumulates the micro-batch loss divided
by `gradient_accumulation_iters` into the gradients. -/
theorem C2_gradient_accumulation_boundary (gai li ei si : ℕ) (loss : ℕ → ℚ) (i : ℕ)
    (hg : 0 < gai) (hi : 0 < i) :
    ((fitEventAt gai li ei si loss i).optimizerStep = true ↔ i % gai = 0) ∧
      ((fitEventAt gai li ei si loss i).zeroGrad = true ↔ i % gai = 0) ∧
      ((fitEventAt gai li ei si loss i).schedulerStep = true ↔ i % gai = 0) ∧
      ((fitStateAfter gai li ei si loss i).step_count
          = (fitStateAfter gai li ei si loss (i - 1)).step_count + 1 ↔ i % gai = 0) ∧
      ((fitEventAt gai li ei si loss i).isAccumulating = true ↔ i % gai ≠ 0) ∧
      ((fitEventAt gai li ei si loss i).syncDisabled = true ↔ i % gai ≠ 0) ∧
      (fitEventAt gai li ei si loss i).backwardContrib = loss i / (gai : ℚ) := by
  rw [fitEventAt_formula gai li ei si loss hg i hi]
  have hs1 := fit_step_count gai li ei si loss hg i
  have hs0 := fit_step_count gai li ei si loss hg (i - 1)
  refine ⟨by simp, by simp, by simp, ?_, by simp, by simp, rfl⟩
  rw [hs1, hs0]
  obtain ⟨n, rfl⟩ : ∃ n, i = n + 1 := ⟨i - 1, (Nat.succ_pred_eq_of_pos hi).symm⟩
  simp only [Nat.add_sub_cancel]
  rw [Nat.succ_div]
  constructor
  · intro h
    by_contra hmod
    rw [if_neg (fun hd => hmod (Nat.dvd_iff_mod_eq_zero.mp hd))] at h
    omega
  · intro h
    rw [if_pos (Nat.dvd_iff_mod_eq_zero.mpr h)]

/-- Witness for C2 at `gai = 2`: iteration 2 steps the optimizer, iteration 1
does not and contributes `loss 1 / 2`. -/
theorem C2_gradient_accumulation_witness :
    (fitEventAt 2 1 5 7 (fun j => (j : ℚ)) 2).optimizerStep = true ∧
      (fitEventAt 2 1 5 7 (fun j => (j : ℚ)) 1).isAccumulating = true ∧
      (fitEventAt 2 1 5 7 (fun j => (j : ℚ)) 1).backwardContrib = 1 / 2 := by
  have h2 := C2_gradient_accumulation_boundary 2 1 5 7 (fun j => (j : ℚ)) 2
    (by norm_num) (by norm_num)
  have h1 := C2_gradient_accumulation_boundary 2 1 5 7 (fun j => (j : ℚ)) 1
    (by norm_num) (by norm_num)
  refine ⟨h2.1.mpr (by norm_num), h1.2.2.2.2.1.mpr (by norm_num), ?_⟩
  rw [h1.2.2.2.2.2.2]
  norm_num

/-- C4: in a fresh run, iteration `i` triggers validation exactly when it
completes an optimizer step (`gai ∣ i`) whose resulting
`step_count = i / gai` is a multiple of `eval.interval`, and saves a full
training-state checkpoint named `step-` (zero-padded step count) `.pth`
exactly when the resulting step count is a multiple of `train.save_interval`;
an iteration that is still accumulating never validates or saves. Every
`validate` makes the generation call with the fixed instruction prompt and at
most `eval.max_new_tokens` new tokens. -/
theorem C4_validate_and_save_cadence (gai li ei si : ℕ) (loss : ℕ → ℚ) (i : ℕ)
    (hg : 0 < gai) (hi : 0 < i) :
    ((fitEventAt gai li ei si loss i).validated = true ↔
      (i % gai = 0 ∧ (i / gai) % ei = 0)) ∧
      ((fitEventAt gai li ei si loss i).savedCheckpoint
          = if i % gai = 0 ∧ (i / gai) % si = 0 then some (checkpointName (i / gai)) else none) ∧
      ((fitEventAt gai li ei si loss i).isAccumulating = true →
        (fitEventAt gai li ei si loss i).validated = false ∧
          (fitEventAt gai li ei si loss i).savedCheckpoint = none) ∧
      (∀ encodedLen mnt : ℕ,
        (validateGeneration encodedLen mnt).promptInstruction
            = "Recommend a movie for me to watch during the weekend and explain the reason." ∧
          (validateGeneration encodedLen mnt).maxReturnedTokens = encodedLen + mnt) := by
  rw [fitEventAt_formula gai li ei si loss hg i hi]
  refine ⟨by simp, ?_, ?_, fun el mnt => ⟨rfl, rfl⟩⟩
  · by_cases h1 : i % gai = 0 <;> by_cases h2 : (i / gai) % si = 0 <;> simp [h1, h2]
  · intro hacc
    simp only [decide_eq_true_eq] at hacc
    simp [hacc]

/-- Witness for C4 at `gai = 2`, `eval.interval = 2`, `save_interval = 3`:
iteration 4 (step 2) validates but does not save; iteration 3 accumulates and
does neither; iteration 6 (step 3) saves `step-000003.pth`. -/
theorem C4_validate_and_save_witness :
    (fitEventAt 2 1 2 3 (fun j => (j : ℚ)) 4).validated = true ∧
      (fitEventAt 2 1 2 3 (fun j => (j : ℚ)) 3).validated = false ∧
      (fitEventAt 2 1 2 3 (fun j => (j : ℚ)) 6).savedCheckpoint
        = some (checkpointName 3) := by
  have h4 := C4_validate_and_save_cadence 2 1 2 3 (fun j => (j : ℚ)) 4 (by norm_num) (by norm_num)
  have h3 := C4_validate_and_save_cadence 2 1 2 3 (fun j => (j : ℚ)) 3 (by norm_num) (by norm_num)
  have h6 := C4_validate_and_save_cadence 2 1 2 3 (fun j => (j : ℚ)) 6 (by norm_num) (by norm_num)
  refine ⟨h4.1.mpr (by norm_num), ?_, ?_⟩
  · have := h3.2.2.1
    simp only [fitEventAt_formula 2 1 2 3 (fun j => (j : ℚ)) (by norm_num) 3 (by norm_num)] at this ⊢
    exact (this (by norm_num)).1
  · rw [h6.2.1]
    norm_num

/-- C5: the loss value `fit` logs — at exactly the iterations divisible by
`train.log_interval` — is the `RunningMean` of the most recent `min gai i`
micro-batch losses (window of size `gai = gradient_accumulation_iters`), i.e.
the mean of the losses of iterations `i - min gai i + 1 .. i`, not the raw
loss of the current micro-batch alone. -/
theorem C5_logged_loss_is_running_mean (gai li ei si : ℕ) (loss : ℕ → ℚ) (i : ℕ)
    (hg : 0 < gai) (hi : 0 < i) :
    ((fitEventAt gai li ei si loss i).loggedLoss ≠ none ↔ i % li = 0) ∧
      (i % li = 0 →
        (fitEventAt gai li ei si loss i).loggedLoss
          = some ((((List.range' (i - min gai i) (min gai i)).map (fun j => loss (j + 1))).sum)
              / ((min gai i : ℕ) : ℚ))) := by
  rw [fitEventAt_formula gai li ei si loss hg i hi]
  have hwin : ((List.range i).map (fun j => loss (j + 1))).drop (i - gai)
      = (List.range' (i - min gai i) (min gai i)).map (fun j => loss (j + 1)) := by
    rw [← List.map_drop, List.range_eq_range', drop_range_shift,
      show 0 + (i - gai) = i - min gai i from by omega,
      show i - (i - gai) = min gai i from by omega]
  constructor
  · by_cases h : i % li = 0 <;> simp [h]
  · intro h
    rw [if_pos h, hwin, runningCompute]
    have hlen : ((List.range' (i - min gai i) (min gai i)).map
        (fun j => loss (j + 1))).length = min gai i := by simp
    rw [hlen]

/-- Witness for C5 at `gai = 2`, iteration 2 with losses `1, 2`: the logged
value is the window mean `3/2`, which differs from the raw current loss `2`. -/
theorem C5_logged_loss_witness :
    (fitEventAt 2 1 5 7 (fun j => (j : ℚ)) 2).loggedLoss = some (3 / 2) ∧
      (3 / 2 : ℚ) ≠ 2 := by
  have h := (C5_logged_loss_is_running_mean 2 1 5 7 (fun j => (j : ℚ)) 2
    (by norm_num) (by norm_num)).2 (by norm_num)
  rw [h]
  norm_num [List.range']

/-- C3: the schedule returned by `get_lr_scheduler` multiplies the base
learning rate by `step / warmup_steps` for the first `warmup_steps` optimizer
steps (starting at factor 0), and thereafter applies cosine annealing with
period `max_steps - warmup_steps`, where `main` passes
`max_steps = min(train.epochs * steps_per_epoch, train.max_steps or inf)`
with `steps_per_epoch = len(train_dataloader) // gradient_accumulation_iters`
(falsy `train.max_steps` — `None` or `0` — makes the minimum the first
argument). -/
theorem C3_lr_schedule_shape (warmup epochs loaderLen gai : ℕ) (maxStepsArg : Option ℕ)
    (k : ℕ) :
    (k < warmup →
      get_lr_scheduler warmup (lr_max_steps epochs loaderLen gai maxStepsArg) k
        = (k : ℝ) / (warmup : ℝ)) ∧
      (0 < warmup →
        get_lr_scheduler warmup (lr_max_steps epochs loaderLen gai maxStepsArg) 0 = 0) ∧
      (warmup ≤ k →
        get_lr_scheduler warmup (lr_max_steps epochs loaderLen gai maxStepsArg) k
          = (1 + Real.cos (Real.pi * ((k : ℝ) - (warmup : ℝ))
              / (((lr_max_steps epochs loaderLen gai maxStepsArg) : ℝ) - (warmup : ℝ)))) / 2) ∧
      lr_max_steps epochs loaderLen gai none = epochs * (loaderLen / gai) ∧
      lr_max_steps epochs loaderLen gai (some 0) = epochs * (loaderLen / gai) ∧
      (∀ ms : ℕ, 0 < ms → lr_max_steps epochs loaderLen gai (some ms)
        = min (epochs * (loaderLen / gai)) ms) := by
  refine ⟨fun hk => ?_, fun hw => ?_, fun hk => ?_, rfl, rfl, fun ms hms => ?_⟩
  · rw [get_lr_scheduler, sequentialLRFactor, if_pos hk, lambdaLRFactor]
  · rw [get_lr_scheduler, sequentialLRFactor, if_pos hw, lambdaLRFactor]
    simp
  · rw [get_lr_scheduler, sequentialLRFactor, if_neg (not_lt.mpr hk), cosineAnnealingFactor]
    rw [Nat.cast_sub hk]
    push_cast
    ring_nf
  · simp only [lr_max_steps, steps_per_epoch]
    rw [if_neg (by omega)]

/-- Witness for C3 with `warmup = 2`, one epoch of 8 batches at `gai = 2`:
exercises the warmup factor, a truthy `max_steps = 3` and the falsy
`max_steps ∈ {None, 0}` cases. -/
theorem C3_lr_schedule_witness :
    lr_max_steps 1 8 2 none = 4 ∧
      lr_max_steps 1 8 2 (some 0) = 4 ∧
      lr_max_steps 1 8 2 (some 3) = 3 ∧
      get_lr_scheduler 2 (lr_max_steps 1 8 2 none) 1 = 1 / 2 ∧
      get_lr_scheduler 2 (lr_max_steps 1 8 2 none) 0 = 0 := by
  have h := C3_lr_schedule_shape 2 1 8 2 none 1
  refine ⟨h.2.2.2.1, h.2.2.2.2.1, ?_, ?_, h.2.1 (by norm_num)⟩
  · rw [(C3_lr_schedule_shape 2 1 8 2 (some 3) 1).2.2.2.2.2 3 (by norm_num)]
    rfl
  · rw [h.1 (by norm_num)]
    norm_num

/-- The fast-forward loop makes exactly `n` `next` calls. -/
theorem fastForward_length (cfg : RunCfg) (s : IterState) (n : ℕ) :
    (fastForward cfg s n).1.length = n := by
  induction n with
  | zero => rfl
  | succ m ih => simp [fastForward, ih]

/-- In seeded mode, `cycleNext` yields the same batch and the same non-RNG
state components from `triEq`-related states. -/
theorem cycleNext_seeded_triEq (cfg : RunCfg) (g : ℕ) (hgen : cfg.generatorSeed = some g)
    (s t : IterState) (h : triEq s t) :
    (cycleNext cfg s).1 = (cycleNext cfg t).1 ∧ triEq (cycleNext cfg s).2 (cycleNext cfg t).2 := by
  obtain ⟨e, p, ps, r1⟩ := s
  obtain ⟨e2, p2, ps2, r2⟩ := t
  obtain ⟨he, hp, hs⟩ := h
  simp only at he hp hs
  subst he hp hs
  cases ps with
  | none => simp [cycleNext, newEpochIter, hgen, triEq]
  | some v =>
    by_cases hlt : p < cfg.datasetLen
    · simp [cycleNext, hlt, triEq]
    · simp [cycleNext, hlt, newEpochIter, hgen, triEq]

/-- Lemma: `trainStep` only touches the RNG beyond what `cycleNext` does. -/
theorem trainStep_proj (cfg : RunCfg) (i : ℕ) (s : IterState) :
    (trainStep cfg i s).1 = (cycleNext cfg s).1 ∧
      triEq (trainStep cfg i s).2 (cycleNext cfg s).2 := by
  unfold trainStep
  by_cases h : (i + 1) % cfg.gai = 0 ∧ (i + 1) / cfg.gai % cfg.evalInterval = 0
  · simp [h, triEq]
  · simp [h, triEq]

/-- Transitivity of `triEq`. -/
theorem triEq_trans {s t u : IterState} (h1 : triEq s t) (h2 : triEq t u) : triEq s u :=
  ⟨h1.1.trans h2.1, h1.2.1.trans h2.2.1, h1.2.2.trans h2.2.2⟩

/-- Symmetry of `triEq`. -/
theorem triEq_symm {s t : IterState} (h : triEq s t) : triEq t s :=
  ⟨h.1.symm, h.2.1.symm, h.2.2.symm⟩

/-- In seeded mode, the fast-forward of `n` batches reaches a state
`triEq`-related to the uninterrupted run after `n` iterations: the interleaved
`validate` calls of the uninterrupted run only move the global RNG, which a
seeded `DataLoader` never consults. -/
theorem fastForward_fresh_triEq (cfg : RunCfg) (g : ℕ) (hgen : cfg.generatorSeed = some g)
    (g0 n : ℕ) :
    triEq (fastForward cfg (initIterState cfg g0) n).2 (freshState cfg g0 n) := by
  induction n with
  | zero => exact ⟨rfl, rfl, rfl⟩
  | succ m ih =>
    have hstep := cycleNext_seeded_triEq cfg g hgen _ _ ih
    have hts := trainStep_proj cfg m (freshState cfg g0 m)
    exact triEq_trans (by simpa [fastForward] using hstep.2) (triEq_symm hts.2)

/-- In seeded mode, the resumed run after `j` post-resume iterations is
`triEq`-related to the uninterrupted run after `n + j` iterations. -/
theorem resumed_fresh_triEq (cfg : RunCfg) (g : ℕ) (hgen : cfg.generatorSeed = some g)
    (g0 n j : ℕ) :
    triEq (resumedState cfg g0 n j) (freshState cfg g0 (n + j)) := by
  induction j with
  | zero => exact fastForward_fresh_triEq cfg g hgen g0 n
  | succ m ih =>
    have hr := trainStep_proj cfg (n + m) (resumedState cfg g0 n m)
    have hf := trainStep_proj cfg (n + m) (freshState cfg g0 (n + m))
    have hc := cycleNext_seeded_triEq cfg g hgen _ _ ih
    exact triEq_trans hr.2 (triEq_trans hc.2 (triEq_symm hf.2))

/-- C1 (amended): the fast-forward loop consumes exactly `n` batches, and for
a data module whose train `DataLoader` has its own seeded generator — as
`Deita.train_dataloader` passes `generator=torch.Generator().manual_seed(seed)`
— the batch sequence the resumed run consumes from iteration `n + 1` onward is
identical to the sequence the uninterrupted run consumes there. (For Alpaca,
whose train `DataLoader` passes no generator, this fails: see the
counterexample.) -/
theorem C1_resume_seeded_determinism (cfg : RunCfg) (g : ℕ)
    (hgen : cfg.generatorSeed = some g) (g0 n j : ℕ) (hj : 1 ≤ j) (s : IterState)
    (d : DeitaModule) :
    (fastForward cfg s n).1.length = n ∧
      resumedBatch cfg g0 n j = freshBatch cfg g0 (n + j) ∧
      (Deita.train_dataloader d).generatorSeed = some d.seed := by
  refine ⟨fastForward_length cfg s n, ?_, rfl⟩
  obtain ⟨m, rfl⟩ : ∃ m, j = m + 1 := ⟨j - 1, (Nat.succ_pred_eq_of_pos hj).symm⟩
  have htri := resumed_fresh_triEq cfg g hgen g0 n m
  have hr := trainStep_proj cfg (n + m) (resumedState cfg g0 n m)
  have hf := trainStep_proj cfg (n + m) (freshState cfg g0 (n + m))
  have hc := cycleNext_seeded_triEq cfg g hgen _ _ htri
  show (trainStep cfg (n + (m + 1) - 1) (resumedState cfg g0 n (m + 1 - 1))).1
    = (trainStep cfg (n + (m + 1) - 1) (freshState cfg g0 (n + (m + 1) - 1))).1
  rw [show n + (m + 1) - 1 = n + m from by omega, show m + 1 - 1 = m from by omega]
  rw [hr.1, hf.1, hc.1]

/-- Witness for C1 (amended) on a concrete seeded configuration: resuming from
`n = 2`, the first post-resume batch equals batch 3 of the uninterrupted run. -/
theorem C1_resume_seeded_witness :
    (fastForward { alpacaCounterCfg with generatorSeed := some 5 }
        (initIterState { alpacaCounterCfg with generatorSeed := some 5 } 0) 2).1.length = 2 ∧
      resumedBatch { alpacaCounterCfg with generatorSeed := some 5 } 0 2 1
        = freshBatch { alpacaCounterCfg with generatorSeed := some 5 } 0 3 := by
  have h := C1_resume_seeded_determinism { alpacaCounterCfg with generatorSeed := some 5 } 5
    rfl 0 2 1 (by norm_num)
    (initIterState { alpacaCounterCfg with generatorSeed := some 5 } 0) Deita.default
  exact ⟨h.1, h.2.1⟩

/-- C1 counterexample: for Alpaca — whose train `DataLoader` is built with
`shuffle=True` and no generator (`alpaca.py:99-106`), so each epoch permutation
is seeded from the global torch RNG — the claim fails. In the concrete run
`alpacaCounterCfg` (two batches per epoch, `gai = 1`, validation every second
step consuming one RNG draw), resuming from a checkpoint at `iter_num = 2`:
the uninterrupted run consumes dataset index 1 at iteration 3, the resumed run
consumes dataset index 0, because the uninterrupted run's validation after
iteration 2 advanced the global RNG before the second epoch permutation was
drawn, while the resumed fast-forward performs no validation. -/
theorem C1_counterexample_alpaca_unseeded :
    alpacaCounterCfg.generatorSeed
        = (Alpaca.train_dataloader (Alpaca.init ⟨0⟩ (-1) true (-1) 42 1 4)).generatorSeed ∧
      (Alpaca.train_dataloader (Alpaca.init ⟨0⟩ (-1) true (-1) 42 1 4)).shuffle = true ∧
      freshBatch alpacaCounterCfg 0 3 = 1 ∧
      resumedBatch alpacaCounterCfg 0 2 1 = 0 ∧
      freshBatch alpacaCounterCfg 0 3 ≠ resumedBatch alpacaCounterCfg 0 2 1 :=
  ⟨rfl, rfl, rfl, rfl, by decide⟩

/-- Witness for C6 at concrete connect arguments. -/
theorem C6_connect_witness :
    (Deita.connect Deita.default (some ⟨1⟩) 4 (some 128)).max_seq_length = 128 ∧
      (TinyStories.connect TinyStories.default (some ⟨1⟩) 4 128).max_seq_length = 128 + 1 := by
  have h := C6_connect_stores_and_loaders_use Deita.default TinyStories.default (some ⟨1⟩) 4 128
    ⟨1⟩ 128 true (-1) 42 4 4
  exact ⟨h.1.2.2.1, h.2.2.1.2.2.1⟩

end LitGpt
